import Mathlib

/-
Verification of the C-LAIfO adversarial imitation-learning agents:
  src/agents/bisim/lail_bisim.py        (LailBisimAgent, variant A)
  src/agents/multi_dataset/lail_cl.py   (LailClAgent, variant B)

Shallow embedding conventions
-----------------------------
* Device tensors are abstracted as flat lists of scalars (`List S` over a
  linear ordered field `S`); the batch dimension is part of the flat vector.
  `torch.cat([x, y], dim=-1)` becomes list append.
* Differentiable-program semantics (forward passes, loss gradients and the
  Adam steps they drive) are fields of a semantics record (`BisimSem`,
  `ClSem`).  Each field's argument list is exactly the data the source
  computation reads, and each routine writes exactly the parameter /
  optimizer fields that the source's `opt.step()` calls touch.  PyTorch
  `.grad` buffers are not modelled: every routine zeroes the gradients it
  steps on before `backward()`, so parameter evolution does not depend on
  leftover gradient buffers.
* Randomness (augmentation shifts, permutations, Gaussian samples) is
  modelled as one fixed realization: a deterministic function field, or an
  explicit noise argument where a claim is about the drawn sample.
* Python floats are modelled as exact scalars; file-system diagnostics
  (`check_aug`, `check_aug_CL`, `save_image`) are pure side effects outside
  the training state and are not modelled.
-/

namespace CLAIfO

/-- A metrics dictionary: insertion-ordered association list, as built by the
`metrics[...] = ...` assignments.  Keys are pairwise distinct in all code
paths, so the list is a faithful model of the Python dict. -/
abbrev Metrics (S : Type) := List (String × S)

/-- One batch tuple `(obs, action, reward, discount, next_obs)` as produced by
a replay-buffer iterator (`utils.to_torch` output). -/
structure Batch (S : Type) where
  obs : List S
  action : List S
  reward : List S
  discount : List S
  nextObs : List S
deriving DecidableEq

/-- A replay-buffer iterator: an infinite stream with a cursor.  `next`
consumes one batch. -/
structure Iter (α : Type) where
  pos : ℕ
  src : ℕ → α

/-- `next(it)`: the batch at the cursor, and the advanced iterator. -/
def Iter.next {α : Type} (it : Iter α) : α × Iter α :=
  (it.src it.pos, { it with pos := it.pos + 1 })

section Scalar

variable {S : Type} [LinearOrderedField S]

/-- `tensor.mean().item()` on a flat tensor. -/
def listMean (l : List S) : S := l.sum / (l.length : S)

/-- Modelled from the spec: `utils.soft_update_params` lives in
`utils_folder/utils.py`, which is not part of the provided sources; the spec
gives the update rule `target = (1-τ)·target + τ·live`, applied parameter-wise
between the live network and the target network. -/
def softUpdateParams (live target : List S) (tau : S) : List S :=
  List.zipWith (fun p t => tau * p + (1 - tau) * t) live target

end Scalar

/-! ### Augmentation configuration (lail_cl.py, `select_aug_type`)

`Augmenter` is the value-level description of the augmentation modules the
constructor assigns: `randomShift pad` is `RandomShiftsAug(pad)`, `photo t`
is the `DEFAULT_AUG` photometric `nn.Sequential` selected by `aug_type = t`,
and `customAug a` is `CustomAug(a)` (per-frame application of `a`). -/

inductive Augmenter where
  | randomShift : ℕ → Augmenter
  | photo : String → Augmenter
  | customAug : Augmenter → Augmenter
deriving DecidableEq

/-- The four augmentation attributes `select_aug_type` is responsible for
(`self.augment1`, `self.augment2`, `self.aug_D`, `self.aug_Q`).  `none` means
the attribute was left unset (the Python method fell through every branch
without assigning it). -/
structure AugSetup where
  augment1 : Option Augmenter
  augment2 : Option Augmenter
  augD : Option Augmenter
  augQ : Option Augmenter
deriving DecidableEq

/-- `LailClAgent.select_aug_type` (lail_cl.py lines 304-363).

The `aug_type` dispatch binds the local `DEFAULT_AUG` only for
`'brightness'`/`'color'`/`'full'`; its `else` branch is the bare expression
`NotImplementedError` (no `raise`), a no-op that leaves `DEFAULT_AUG`
unbound.  Reading the unbound local afterwards raises `UnboundLocalError`,
modelled as `Except.error`.  `byol_pytorch.default(None, x)` returns `x`.
The `apply_aug` dispatch likewise ends in a bare `NotImplementedError`, so an
unsupported routing mode returns normally with all four attributes unset. -/
def selectAugType (augType applyAug : String) : Except String AugSetup :=
  let defaultAug : Option Augmenter :=
    if augType = "brightness" then some (.photo "brightness")
    else if augType = "color" then some (.photo "color")
    else if augType = "full" then some (.photo "full")
    else none
  let need : Option Augmenter → Except String Augmenter := fun o =>
    match o with
    | some a => .ok a
    | none => .error "UnboundLocalError: DEFAULT_AUG referenced before assignment"
  if applyAug = "everywhere" then do
    let d ← need defaultAug
    .ok ⟨some d, some d, some (.customAug d), some (.customAug d)⟩
  else if applyAug = "nowhere" then
    .ok ⟨some (.randomShift 4), some (.randomShift 4),
         some (.randomShift 4), some (.randomShift 4)⟩
  else if applyAug = "CL-only" then do
    let d ← need defaultAug
    .ok ⟨some d, some d, some (.randomShift 4), some (.randomShift 4)⟩
  else if applyAug = "CL-D" then do
    let d ← need defaultAug
    .ok ⟨some d, some d, some (.customAug d), some (.randomShift 4)⟩
  else if applyAug = "CL-Q" then do
    let d ← need defaultAug
    .ok ⟨some d, some d, some (.randomShift 4), some (.customAug d)⟩
  else
    .ok ⟨none, none, none, none⟩

/-- The augmentation-relevant slice of `LailClAgent.__init__`
(lail_cl.py lines 255-261): the constructor stores `apply_aug`, runs
`select_aug_type` with the *constructor argument* `apply_aug`, and only
afterwards overwrites the stored attribute with `'nowhere'` when
`depth_flag or segm_flag` — without re-running the selection.  The result is
the materialized augmenters paired with the final `self.apply_aug` string. -/
def mkClAgentAug (augType applyAug : String) (depthFlag segmFlag : Bool) :
    Except String (AugSetup × String) := do
  let setup ← selectAugType augType applyAug
  let applyAugAttr := if depthFlag || segmFlag then "nowhere" else applyAug
  .ok (setup, applyAugAttr)

/-! ### Transition model construction (lail_bisim.py, `TransitionModel.__init__`) -/

/-- The attribute state `TransitionModel.__init__` (lail_bisim.py lines
151-169) leaves behind.  `mu`/`sigma` are `none` when the corresponding
`nn.Linear` head was never assigned.  The `else` branch is the bare
expression `NotImplementedError` (no `raise`): construction with an
unsupported `model_type` returns normally with no prediction heads. -/
structure TransitionModelNet (S : Type) where
  modelType : String
  trunk : List S
  mu : Option (List S)
  sigma : Option (List S)
deriving DecidableEq

/-- `TransitionModel.__init__`: the trunk is always built; the heads depend on
`model_type`, and an unsupported value silently builds neither. -/
def mkTransitionModel {S : Type} (modelType : String)
    (trunkInit muInit sigmaInit : List S) : TransitionModelNet S :=
  { modelType := modelType
    trunk := trunkInit
    mu :=
      if modelType = "deterministic" then some muInit
      else if modelType = "probabilistic" then some muInit
      else none
    sigma :=
      if modelType = "probabilistic" then some sigmaInit
      else none }

/-! ### The visual encoder over ℝ (lail_cl.py `Encoder`, lail_bisim.py `Encoder`)

A per-sample embedding: one observation is a flat pixel vector, its latent a
`List ℝ`.  The strided convolution stack (`self.convnet`, four Conv2d/ReLU
pairs plus flatten — internals irrelevant to every claim) and the trunk's
`Linear`/`LayerNorm` pre-activation are carried as function parameters of
the configuration; the bounding `nn.Tanh()` that ends the trunk, and the
stochastic head's second `torch.tanh`, `exp` and Gaussian sampling, are
explicit.  The bisim-variant encoder (lail_bisim.py lines 46-74) is exactly
the `stochastic := false` case. -/

structure EncoderCfg where
  featureDim : ℕ
  stochastic : Bool
  logStdMin : ℝ
  logStdMax : ℝ
  /-- `self.convnet` followed by the flatten (`view`/`reshape`), acting on
  the normalized observation. -/
  convnet : List ℝ → List ℝ
  /-- The trunk's `nn.Linear` + `nn.LayerNorm` pre-activation; its output
  length is `2*feature_dim` when stochastic, else `feature_dim`. -/
  trunkPre : List ℝ → List ℝ

/-- `Encoder.forward` (lail_cl.py lines 120-136): normalize to `[-0.5, 0.5]`,
conv stack, trunk ending in `Tanh`; in stochastic mode chunk into mean and
log-std, bound the log-std through a second `tanh` into
`[log_std_min, log_std_max]`, exponentiate, and return the reparameterized
Gaussian sample `mu + std * noise` (`dist.sample()`, drawn fresh per call —
`noise` is that draw). -/
noncomputable def EncoderCfg.forward (e : EncoderCfg) (obs noise : List ℝ) :
    List ℝ :=
  let x := obs.map (fun p => p / 255 - 0.5)
  let h := e.convnet x
  let z := (e.trunkPre h).map Real.tanh
  if e.stochastic then
    let mu := z.take e.featureDim
    let logStdRaw := z.drop e.featureDim
    let logStd := logStdRaw.map (fun t =>
      e.logStdMin + 0.5 * (e.logStdMax - e.logStdMin) * (Real.tanh t + 1))
    let std := logStd.map Real.exp
    (mu.zip (std.zip noise)).map (fun p => p.1 + p.2.1 * p.2.2)
  else z

/-- A batch of observations through the encoder: the `[B, ...]` leading
dimension is the list of samples (each with its own noise draw). -/
noncomputable def EncoderCfg.forwardBatch (e : EncoderCfg)
    (obsB noiseB : List (List ℝ)) : List (List ℝ) :=
  (obsB.zip noiseB).map (fun p => e.forward p.1 p.2)

/-! ### The bisimulation agent (lail_bisim.py, `LailBisimAgent`)

Agent state: the mutable attributes of the Python object.  Parameter vectors
and optimizer states are opaque flat vectors; the semantics record below
says how each optimizer step transforms them. -/

section Bisim

variable {S : Type} [LinearOrderedField S]

/-- Mutable state of a `LailBisimAgent` (constructor lines 200-263). -/
structure BisimAgent (S : Type) where
  criticTargetTau : S
  updateEverySteps : ℕ
  useTb : Bool
  numExplSteps : ℕ
  stddevClip : S
  bisimCoef : S
  transitionModelType : String
  ganLoss : String
  fromDem : Bool
  rewardDCoef : S
  encoder : List S
  actor : List S
  critic : List S
  criticTarget : List S
  discriminator : List S
  transitionModel : List S
  rewardDecoder : List S
  encoderOpt : List S
  actorOpt : List S
  criticOpt : List S
  discriminatorOpt : List S
  transitionModelOpt : List S
  rewardDecoderOpt : List S
  /-- `self.discriminator.training` (toggled by `.eval()` / `.train()`). -/
  discTraining : Bool
deriving DecidableEq

/-- Result of the combined critic/encoder Adam step driven by
`critic_loss.backward()` (`update_critic`, lines 305-310), together with the
scalars logged in its metrics. -/
structure CriticStepOut (S : Type) where
  encoder : List S
  critic : List S
  encoderOpt : List S
  criticOpt : List S
  criticTargetQ : S
  criticQ1 : S
  criticQ2 : S
  criticLoss : S

/-- Result of the actor Adam step driven by `actor_loss.backward()`
(`update_actor`, lines 326-329) plus its logged scalars. -/
structure ActorStepOut (S : Type) where
  actor : List S
  actorOpt : List S
  actorLoss : S
  actorLogprob : S
  actorEnt : S

/-- Result of the discriminator Adam step (`update_discriminator`,
lines 432-434) plus its logged scalars. -/
structure DiscStepOut (S : Type) where
  discriminator : List S
  discriminatorOpt : List S
  expertLoss : S
  agentLoss : S
  loss : S
  gradPen : S

/-- Result of the joint encoder / transition-model / reward-decoder Adam step
(`update_encoder`, lines 492-498) plus its logged scalars. -/
structure EncoderStepOut (S : Type) where
  encoder : List S
  transitionModel : List S
  rewardDecoder : List S
  encoderOpt : List S
  transitionModelOpt : List S
  rewardDecoderOpt : List S
  encoderLoss : S
  modelLoss : S
  rewardLoss : S

/-- Semantics of the tensor computations `LailBisimAgent` delegates to
torch/autograd.  Each field's arguments are exactly the tensors and
parameters the corresponding source computation reads (one fixed realization
of any randomness). -/
structure BisimSem (S : Type) where
  /-- `utils.schedule(self.stddev_schedule, step)`. -/
  schedule : ℕ → S
  /-- `self.aug` = `RandomShiftsAug(pad=4)` applied to a tensor. -/
  aug : List S → List S
  /-- `self.encoder(obs)`: encoder parameters, observation tensor → latent. -/
  encFwd : List S → List S → List S
  /-- `self.actor(latent, std).mean` (actor parameters, latent, std). -/
  actorMean : List S → List S → S → List S
  /-- `self.actor(latent, std).sample(clip=None)` with an explicit Gaussian
  draw as last argument. -/
  actorSampleNoClip : List S → List S → S → List S → List S
  /-- Raw discriminator scores: `self.discriminator.net(input)`. -/
  discScore : List S → List S → List S
  /-- `Bernoulli(...).mode()` of the wrapped logits (bce head). -/
  bernMode : List S → List S
  /-- Least-squares discriminator update (branch `GAN_loss == 'least-square'`
  of `update_discriminator`, including `compute_discriminator_grad_penalty_LS`
  on the detached expert features). -/
  discStepLS : (disc discOpt obsA nextA obsE nextE : List S) → DiscStepOut S
  /-- bce discriminator update (branch `GAN_loss == 'bce'`, including
  `compute_discriminator_grad_penalty_bce` on the detached features). -/
  discStepBCE : (disc discOpt obsA nextA obsE nextE : List S) → DiscStepOut S
  /-- `update_critic` loss-and-step: reads the live encoder/critic parameters,
  the frozen critic target, both optimizer states, the latent batch, action,
  (discriminator) reward, discount, next latent, the scheduled stddev and the
  clip bound; steps critic and encoder. -/
  criticStep : (enc critic criticTarget encOpt critOpt : List S) →
    (obs action reward discount nextObs : List S) → (stddev clip : S) →
    CriticStepOut S
  /-- `update_actor` loss-and-step: reads actor and (frozen) critic
  parameters, the detached latent batch, stddev and clip; steps the actor. -/
  actorStep : (actor critic actorOpt : List S) → (obs : List S) →
    (stddev clip : S) → ActorStepOut S
  /-- `update_encoder` joint loss-and-step (bisimulation loss + transition
  NLL + reward MSE, lines 444-498): reads encoder, transition model, reward
  decoder, their optimizer states, `bisim_coef`, `transition_model_type` and
  the (augmented, re-encoded) batch; steps all three modules. -/
  encoderStep : (enc tm rdec encOpt tmOpt rdecOpt : List S) →
    (bisimCoef : S) → (tmType : String) →
    (obs action reward discount nextObs : List S) → EncoderStepOut S

namespace BisimAgent

/-- `LailBisimAgent.act` (lines 272-283).  `gaussNoise` is the Gaussian draw
behind `dist.sample(clip=None)`; `uniformDraw` is the value written by
`action.uniform_(-1.0, 1.0)`. -/
def act (sem : BisimSem S) (a : BisimAgent S) (obs : List S) (step : ℕ)
    (evalMode : Bool) (gaussNoise uniformDraw : List S) : List S :=
  let z := sem.encFwd a.encoder obs
  let stddev := sem.schedule step
  if evalMode then
    sem.actorMean a.actor z stddev
  else
    let action := sem.actorSampleNoClip a.actor z stddev gaussNoise
    if step < a.numExplSteps then uniformDraw else action

/-- `LailBisimAgent.update_critic` (lines 285-312): computes the bootstrap
target under `no_grad` against the critic target, then steps critic and
encoder on the critic loss. -/
def updateCritic (sem : BisimSem S) (a : BisimAgent S)
    (obs action reward discount nextObs : List S) (step : ℕ) :
    BisimAgent S × Metrics S :=
  let out := sem.criticStep a.encoder a.critic a.criticTarget a.encoderOpt
    a.criticOpt obs action reward discount nextObs (sem.schedule step)
    a.stddevClip
  let metrics : Metrics S :=
    if a.useTb then
      [("critic_target_q", out.criticTargetQ), ("critic_q1", out.criticQ1),
       ("critic_q2", out.criticQ2), ("critic_loss", out.criticLoss)]
    else []
  ({ a with
      encoder := out.encoder
      critic := out.critic
      encoderOpt := out.encoderOpt
      criticOpt := out.criticOpt }, metrics)

/-- `LailBisimAgent.update_actor` (lines 314-336): only
`actor_opt.zero_grad(); actor_loss.backward(); actor_opt.step()` — the one
optimizer step touches only the actor parameters (the caller passes the
detached latent, so no gradient reaches the encoder). -/
def updateActor (sem : BisimSem S) (a : BisimAgent S) (obs : List S)
    (step : ℕ) : BisimAgent S × Metrics S :=
  let out := sem.actorStep a.actor a.critic a.actorOpt obs
    (sem.schedule step) a.stddevClip
  let metrics : Metrics S :=
    if a.useTb then
      [("actor_loss", out.actorLoss), ("actor_logprob", out.actorLogprob),
       ("actor_ent", out.actorEnt)]
    else []
  ({ a with actor := out.actor, actorOpt := out.actorOpt }, metrics)

/-- `LailBisimAgent.compute_reward` (lines 338-374): augment, encode under
`no_grad`, switch the discriminator to evaluation mode, score the transition,
map the score through the configured reward transform, log, and switch the
discriminator (unconditionally) back to training mode.  In `from_dem` mode
the second argument is the action: it is neither augmented nor encoded.
Construction fails for any other `GAN_loss` (the discriminator attribute is
never assigned), so the transform only distinguishes the two families. -/
def computeReward (sem : BisimSem S) (a : BisimAgent S)
    (obsA nextA : List S) : BisimAgent S × List S × Metrics S :=
  let obsAug := sem.aug obsA
  let nextAug := if a.fromDem then nextA else sem.aug nextA
  let zObs := sem.encFwd a.encoder obsAug
  let zNext := if a.fromDem then nextAug else sem.encFwd a.encoder nextAug
  let a1 := { a with discTraining := false }
  let d := sem.discScore a1.discriminator (zObs ++ zNext)
  let rewardD :=
    if a.ganLoss = "least-square" then
      d.map (fun x => a.rewardDCoef * max (1 - (1/4) * (x - 1)^2) 0)
    else
      sem.bernMode d
  let metrics : Metrics S :=
    if a.useTb then [("reward_d", listMean rewardD)] else []
  let a2 := { a1 with discTraining := true }
  (a2, rewardD, metrics)

/-- `LailBisimAgent.update_discriminator` (lines 408-442): one discriminator
Adam step on the configured GAN loss plus gradient penalty, computed from
already-encoded (detached) agent and expert features. -/
def updateDiscriminator (sem : BisimSem S) (a : BisimAgent S)
    (obsA nextA obsE nextE : List S) : BisimAgent S × Metrics S :=
  let out :=
    if a.ganLoss = "least-square" then
      sem.discStepLS a.discriminator a.discriminatorOpt obsA nextA obsE nextE
    else
      sem.discStepBCE a.discriminator a.discriminatorOpt obsA nextA obsE nextE
  let metrics : Metrics S :=
    if a.useTb then
      [("discriminator_expert_loss", out.expertLoss),
       ("discriminator_agent_loss", out.agentLoss),
       ("discriminator_loss", out.loss),
       ("discriminator_grad_pen", out.gradPen)]
    else []
  ({ a with
      discriminator := out.discriminator
      discriminatorOpt := out.discriminatorOpt }, metrics)

/-- `LailBisimAgent.update_encoder` (lines 444-505): the joint bisimulation
update of encoder, transition model and reward decoder.  Defined here exactly
as in the source — and, as in the source, never invoked by `update`. -/
def updateEncoder (sem : BisimSem S) (a : BisimAgent S)
    (obs action reward discount nextObs : List S) :
    BisimAgent S × Metrics S :=
  let out := sem.encoderStep a.encoder a.transitionModel a.rewardDecoder
    a.encoderOpt a.transitionModelOpt a.rewardDecoderOpt a.bisimCoef
    a.transitionModelType obs action reward discount nextObs
  let metrics : Metrics S :=
    if a.useTb then
      [("encoder_loss", out.encoderLoss), ("model_loss", out.modelLoss),
       ("reward_loss", out.rewardLoss)]
    else []
  ({ a with
      encoder := out.encoder
      transitionModel := out.transitionModel
      rewardDecoder := out.rewardDecoder
      encoderOpt := out.encoderOpt
      transitionModelOpt := out.transitionModelOpt
      rewardDecoderOpt := out.rewardDecoderOpt }, metrics)

end BisimAgent

/-- Output of `LailBisimAgent.update`: the post-call agent state, the two
(possibly advanced) iterators and the metrics dict. -/
structure BisimUpdateOut (S : Type) where
  agent : BisimAgent S
  it : Iter (Batch S)
  itE : Iter (Batch S)
  metrics : Metrics S

/-- `LailBisimAgent.update` (lines 507-560).  Early-returns an empty dict
when `step % update_every_steps != 0` without consuming any iterator.
Otherwise: sample both batches; augment and encode agent/expert observations
under `no_grad`; discriminator update; adversarial reward; re-augment and
re-encode the agent batch for the critic path; log `batch_reward`; critic
update (on the discriminator reward); actor update on the detached latent;
soft-update the critic target.  `update_encoder` is never called. -/
def BisimAgent.update (sem : BisimSem S) (a : BisimAgent S)
    (replayIter replayIterExpert : Iter (Batch S)) (step : ℕ) :
    BisimUpdateOut S :=
  if step % a.updateEverySteps ≠ 0 then
    ⟨a, replayIter, replayIterExpert, []⟩
  else
    let b := (replayIter.next).1
    let it1 := (replayIter.next).2
    let bE := (replayIterExpert.next).1
    let itE1 := (replayIterExpert.next).2
    let obsE := sem.aug bE.obs
    let nextObsE := sem.aug bE.nextObs
    let obsA := sem.aug b.obs
    let nextObsA := sem.aug b.nextObs
    -- torch.no_grad() encoding of the discriminator-path features
    let zE := sem.encFwd a.encoder obsE
    let zNextE := sem.encFwd a.encoder nextObsE
    let zA := sem.encFwd a.encoder obsA
    let zNextA := sem.encFwd a.encoder nextObsA
    let r1 :=
      if a.fromDem then
        BisimAgent.updateDiscriminator sem a zA b.action zE bE.action
      else
        BisimAgent.updateDiscriminator sem a zA zNextA zE zNextE
    let a1 := r1.1
    let m1 := r1.2
    let r2 :=
      if a.fromDem then BisimAgent.computeReward sem a1 b.obs b.action
      else BisimAgent.computeReward sem a1 b.obs b.nextObs
    let a2 := r2.1
    let reward := r2.2.1
    let m2 := r2.2.2
    -- re-augment and re-encode the agent batch for the critic path
    -- (obs with gradients, next_obs under no_grad)
    let obsQ := sem.aug b.obs
    let nextObsQ := sem.aug b.nextObs
    let zObs := sem.encFwd a2.encoder obsQ
    let zNext := sem.encFwd a2.encoder nextObsQ
    let m3 : Metrics S :=
      if a.useTb then [("batch_reward", listMean b.reward)] else []
    let r4 := BisimAgent.updateCritic sem a2 zObs b.action reward
      b.discount zNext step
    let a3 := r4.1
    let m4 := r4.2
    let r5 := BisimAgent.updateActor sem a3 zObs step
    let a4 := r5.1
    let m5 := r5.2
    let a5 := { a4 with
      criticTarget := softUpdateParams a4.critic a4.criticTarget
        a.criticTargetTau }
    ⟨a5, it1, itE1, m1 ++ m2 ++ m3 ++ m4 ++ m5⟩

end Bisim

/-! ### The contrastive agent (lail_cl.py, `LailClAgent`)

The orchestration-level state assumes a successfully constructed agent, so
the four augmenter attributes are present (claims about unsupported enum
values are settled against `selectAugType` / `mkClAgentAug` /
`mkTransitionModel` above). -/

section Cl

variable {S : Type} [LinearOrderedField S]

/-- Mutable state of a `LailClAgent` (constructor lines 212-302). -/
structure ClAgent (S : Type) where
  criticTargetTau : S
  updateEverySteps : ℕ
  useTb : Bool
  numExplSteps : ℕ
  stddevClip : S
  ganLoss : String
  fromDem : Bool
  checkEverySteps : ℕ
  trainEncoderWCritic : Bool
  clDataType : String
  addAugAnchorAndPositive : Bool
  rewardDCoef : S
  /-- `self.apply_aug` after the `depth_flag or segm_flag` override. -/
  applyAugAttr : String
  augment1 : Augmenter
  augment2 : Augmenter
  augD : Augmenter
  augQ : Augmenter
  encoder : List S
  actor : List S
  critic : List S
  criticTarget : List S
  discriminator : List S
  /-- The contrastive module's bilinear weight `CL.W`. -/
  clW : List S
  encoderOpt : List S
  actorOpt : List S
  criticOpt : List S
  discriminatorOpt : List S
  clOpt : List S
  discTraining : Bool
deriving DecidableEq

/-- Result of the joint encoder/CL Adam step driven by the contrastive
cross-entropy loss (`update_CL`, lines 621-625) plus its logged scalar. -/
structure ClStepOut (S : Type) where
  encoder : List S
  clW : List S
  encoderOpt : List S
  clOpt : List S
  clLoss : S

/-- Semantics of the tensor computations `LailClAgent` delegates to
torch/autograd; same reading as `BisimSem`. -/
structure ClSem (S : Type) where
  schedule : ℕ → S
  /-- Application of an augmentation module to a tensor (one realization:
  `RandomShiftsAug`, a raw photometric stack applied per-frame inside
  `LailClAgent.augment`, or `CustomAug`). -/
  applyAug : Augmenter → List S → List S
  /-- The shared batch permutation `rand_idx = torch.randperm(...)` used in
  the `CL_data_type == 'all'` branch, as a reindexing of a tensor. -/
  perm : List S → List S
  encFwd : List S → List S → List S
  actorMean : List S → List S → S → List S
  actorSampleNoClip : List S → List S → S → List S → List S
  discScore : List S → List S → List S
  bernMode : List S → List S
  discStepLS : (disc discOpt obsA nextA obsE nextE : List S) → DiscStepOut S
  discStepBCE : (disc discOpt obsA nextA obsE nextE : List S) → DiscStepOut S
  criticStep : (enc critic criticTarget encOpt critOpt : List S) →
    (obs action reward discount nextObs : List S) → (stddev clip : S) →
    CriticStepOut S
  actorStep : (actor critic actorOpt : List S) → (obs : List S) →
    (stddev clip : S) → ActorStepOut S
  /-- `update_CL` loss-and-step: contrastive logits of anchor/positive
  latents against `CL.W`, cross-entropy, one step of `encoder_opt` and
  `CL_opt`. -/
  clStep : (enc clW encOpt clOpt : List S) → (anchors positives : List S) →
    ClStepOut S

namespace ClAgent

/-- `LailClAgent.act` (lines 404-415) — identical to the bisim variant. -/
def act (sem : ClSem S) (a : ClAgent S) (obs : List S) (step : ℕ)
    (evalMode : Bool) (gaussNoise uniformDraw : List S) : List S :=
  let z := sem.encFwd a.encoder obs
  let stddev := sem.schedule step
  if evalMode then
    sem.actorMean a.actor z stddev
  else
    let action := sem.actorSampleNoClip a.actor z stddev gaussNoise
    if step < a.numExplSteps then uniformDraw else action

/-- `LailClAgent.augment` (lines 365-394): per-frame application of
`augment1`/`augment2`.  With `add_aug_anchor_and_positive` both views are
augmented; otherwise the anchor view is the raw observation. -/
def augmentPair (sem : ClSem S) (a : ClAgent S) (obs : List S) :
    List S × List S :=
  if a.addAugAnchorAndPositive then
    (sem.applyAug a.augment1 obs, sem.applyAug a.augment2 obs)
  else
    (obs, sem.applyAug a.augment2 obs)

/-- `LailClAgent.update_critic` (lines 417-449): like the bisim variant, but
the encoder is stepped only when `train_encoder_w_critic` is set. -/
def updateCritic (sem : ClSem S) (a : ClAgent S)
    (obs action reward discount nextObs : List S) (step : ℕ) :
    ClAgent S × Metrics S :=
  let out := sem.criticStep a.encoder a.critic a.criticTarget a.encoderOpt
    a.criticOpt obs action reward discount nextObs (sem.schedule step)
    a.stddevClip
  let metrics : Metrics S :=
    if a.useTb then
      [("critic_target_q", out.criticTargetQ), ("critic_q1", out.criticQ1),
       ("critic_q2", out.criticQ2), ("critic_loss", out.criticLoss)]
    else []
  if a.trainEncoderWCritic then
    ({ a with
        encoder := out.encoder
        critic := out.critic
        encoderOpt := out.encoderOpt
        criticOpt := out.criticOpt }, metrics)
  else
    ({ a with critic := out.critic, criticOpt := out.criticOpt }, metrics)

/-- `LailClAgent.update_actor` (lines 451-473) — identical to the bisim
variant: one actor-optimizer step, nothing else. -/
def updateActor (sem : ClSem S) (a : ClAgent S) (obs : List S) (step : ℕ) :
    ClAgent S × Metrics S :=
  let out := sem.actorStep a.actor a.critic a.actorOpt obs
    (sem.schedule step) a.stddevClip
  let metrics : Metrics S :=
    if a.useTb then
      [("actor_loss", out.actorLoss), ("actor_logprob", out.actorLogprob),
       ("actor_ent", out.actorEnt)]
    else []
  ({ a with actor := out.actor, actorOpt := out.actorOpt }, metrics)

/-- `LailClAgent.compute_reward` (lines 475-511): as in the bisim variant but
augmenting through `self.aug_D`. -/
def computeReward (sem : ClSem S) (a : ClAgent S) (obsA nextA : List S) :
    ClAgent S × List S × Metrics S :=
  let obsAug := sem.applyAug a.augD obsA
  let nextAug := if a.fromDem then nextA else sem.applyAug a.augD nextA
  let zObs := sem.encFwd a.encoder obsAug
  let zNext := if a.fromDem then nextAug else sem.encFwd a.encoder nextAug
  let a1 := { a with discTraining := false }
  let d := sem.discScore a1.discriminator (zObs ++ zNext)
  let rewardD :=
    if a.ganLoss = "least-square" then
      d.map (fun x => a.rewardDCoef * max (1 - (1/4) * (x - 1)^2) 0)
    else
      sem.bernMode d
  let metrics : Metrics S :=
    if a.useTb then [("reward_d", listMean rewardD)] else []
  let a2 := { a1 with discTraining := true }
  (a2, rewardD, metrics)

/-- `LailClAgent.update_discriminator` (lines 545-579) — textually identical
to the bisim variant. -/
def updateDiscriminator (sem : ClSem S) (a : ClAgent S)
    (obsA nextA obsE nextE : List S) : ClAgent S × Metrics S :=
  let out :=
    if a.ganLoss = "least-square" then
      sem.discStepLS a.discriminator a.discriminatorOpt obsA nextA obsE nextE
    else
      sem.discStepBCE a.discriminator a.discriminatorOpt obsA nextA obsE nextE
  let metrics : Metrics S :=
    if a.useTb then
      [("discriminator_expert_loss", out.expertLoss),
       ("discriminator_agent_loss", out.agentLoss),
       ("discriminator_loss", out.loss),
       ("discriminator_grad_pen", out.gradPen)]
    else []
  ({ a with
      discriminator := out.discriminator
      discriminatorOpt := out.discriminatorOpt }, metrics)

/-- The anchor/positive construction of `update_CL` (lines 584-611): the
`CL_data_type` dispatch picks what is augmented, `self.augment` produces the
two views, and the `'all'` branch prepends the *non-augmented* random-buffer
tensors (cross-paired through the shared `rand_idx` permutation) to the
freshly augmented current-batch views.  `none` models the unsupported
`CL_data_type` path: the dispatch's bare `NotImplementedError` is a no-op
that leaves `anchor_to_aug` unbound. -/
def clAnchorsPositives (sem : ClSem S) (a : ClAgent S)
    (obs obsE obsRandom obsERandom : List S) : Option (List S × List S) :=
  let anchorToAug : Option (List S) :=
    if a.clDataType = "agent" then some obs
    else if a.clDataType = "expert" then some (obs ++ obsE)
    else if a.clDataType = "all" then some (obs ++ obsE)
    else none
  match anchorToAug with
  | none => none
  | some toAug =>
    let views := augmentPair sem a toAug
    if a.clDataType = "all" then
      some ((obsRandom ++ obsERandom) ++ views.1,
            (sem.perm obsERandom ++ sem.perm obsRandom) ++ views.2)
    else
      some (views.1, views.2)

/-- `LailClAgent.update_CL` (lines 581-630): build anchors/positives, encode
them (positives under `no_grad`), take one joint step of `encoder_opt` and
`CL_opt` on the contrastive cross-entropy.  Reading the unbound
`anchor_to_aug` on the unsupported-`CL_data_type` path raises
`UnboundLocalError` at `self.augment`, modelled as `Except.error`.
`check_aug_CL` is a file-system diagnostic and is not modelled. -/
def updateCL (sem : ClSem S) (a : ClAgent S)
    (obs obsE obsRandom obsERandom : List S) :
    Except String (ClAgent S × Metrics S) :=
  match clAnchorsPositives sem a obs obsE obsRandom obsERandom with
  | none => .error "UnboundLocalError: anchor_to_aug referenced before assignment"
  | some ap =>
    let out := sem.clStep a.encoder a.clW a.encoderOpt a.clOpt ap.1 ap.2
    let metrics : Metrics S :=
      if a.useTb then [("CL_loss", out.clLoss)] else []
    .ok ({ a with
        encoder := out.encoder
        clW := out.clW
        encoderOpt := out.encoderOpt
        clOpt := out.clOpt }, metrics)

end ClAgent

/-- Output of `LailClAgent.update`. -/
structure ClUpdateOut (S : Type) where
  agent : ClAgent S
  it : Iter (Batch S)
  itE : Iter (Batch S)
  itR : Iter (Batch S)
  itER : Iter (Batch S)
  metrics : Metrics S

/-- `LailClAgent.update` (lines 632-706).  Early-returns an empty dict when
`step % update_every_steps != 0` without consuming any iterator.  Otherwise:
sample the four batches; contrastive update; `aug_D`-augment and `no_grad`
encode the discriminator-path features; discriminator update; adversarial
reward; `aug_Q`-augment and encode the critic path; log `batch_reward`;
critic update; actor update on the detached latent; soft-update the critic
target.  `check_aug` image dumps are diagnostics and are not modelled. -/
def ClAgent.update (sem : ClSem S) (a : ClAgent S)
    (replayIter replayIterExpert replayIterRandom replayIterExpertRandom :
      Iter (Batch S)) (step : ℕ) : Except String (ClUpdateOut S) :=
  if step % a.updateEverySteps ≠ 0 then
    .ok ⟨a, replayIter, replayIterExpert, replayIterRandom,
         replayIterExpertRandom, []⟩
  else
    let b := (replayIter.next).1
    let it1 := (replayIter.next).2
    let bE := (replayIterExpert.next).1
    let itE1 := (replayIterExpert.next).2
    let bR := (replayIterRandom.next).1
    let itR1 := (replayIterRandom.next).2
    let bER := (replayIterExpertRandom.next).1
    let itER1 := (replayIterExpertRandom.next).2
    match ClAgent.updateCL sem a b.obs bE.obs bR.obs bER.obs with
    | .error e => .error e
    | .ok rCL =>
      let a1 := rCL.1
      let m1 := rCL.2
      let obsE := sem.applyAug a.augD bE.obs
      let nextObsE := sem.applyAug a.augD bE.nextObs
      let obsA := sem.applyAug a.augD b.obs
      let nextObsA := sem.applyAug a.augD b.nextObs
      -- torch.no_grad() encoding of the discriminator-path features
      let zE := sem.encFwd a1.encoder obsE
      let zNextE := sem.encFwd a1.encoder nextObsE
      let zA := sem.encFwd a1.encoder obsA
      let zNextA := sem.encFwd a1.encoder nextObsA
      let r2 :=
        if a.fromDem then
          ClAgent.updateDiscriminator sem a1 zA b.action zE bE.action
        else
          ClAgent.updateDiscriminator sem a1 zA zNextA zE zNextE
      let a2 := r2.1
      let m2 := r2.2
      let r3 :=
        if a.fromDem then ClAgent.computeReward sem a2 b.obs b.action
        else ClAgent.computeReward sem a2 b.obs b.nextObs
      let a3 := r3.1
      let reward := r3.2.1
      let m3 := r3.2.2
      let obsQ := sem.applyAug a.augQ b.obs
      let nextObsQ := sem.applyAug a.augQ b.nextObs
      let zObs := sem.encFwd a3.encoder obsQ
      let zNext := sem.encFwd a3.encoder nextObsQ
      let m4 : Metrics S :=
        if a.useTb then [("batch_reward", listMean b.reward)] else []
      let r5 := ClAgent.updateCritic sem a3 zObs b.action reward
        b.discount zNext step
      let a4 := r5.1
      let m5 := r5.2
      let r6 := ClAgent.updateActor sem a4 zObs step
      let a5 := r6.1
      let m6 := r6.2
      let a6 := { a5 with
        criticTarget := softUpdateParams a5.critic a5.criticTarget
          a.criticTargetTau }
      .ok ⟨a6, it1, itE1, itR1, itER1, m1 ++ m2 ++ m3 ++ m4 ++ m5 ++ m6⟩

end Cl

/-! ### Concrete rational instances

Small executable instantiations used by the witnesses and counterexamples:
constant-free dynamics are enough because the claims under test are about
orchestration, not about particular loss values. -/

/-- A concrete replay batch. -/
def qBatch : Batch ℚ := ⟨[1], [2], [3], [1], [4]⟩

/-- A concrete iterator producing `qBatch` forever. -/
def qIter : Iter (Batch ℚ) := ⟨0, fun _ => qBatch⟩

/-- A concrete iterator whose first batch differs from `qIter`'s only in the
extrinsic reward component. -/
def qIterReward7 : Iter (Batch ℚ) := ⟨0, fun _ => ⟨[1], [2], [7], [1], [4]⟩⟩

/-- Executable semantics for the bisim agent over `ℚ`. -/
def bisimSem0 : BisimSem ℚ :=
  { schedule := fun _ => 1
    aug := fun x => x.map (· + 1)
    encFwd := fun p x => p ++ x
    actorMean := fun p z s => p ++ z ++ [s]
    actorSampleNoClip := fun p z s n => p ++ z ++ [s] ++ n
    discScore := fun p x => p ++ x
    bernMode := fun d => d
    discStepLS := fun d dOpt _ _ _ _ => ⟨d.map (· + 1), dOpt.map (· + 1), 1, 2, 3, 4⟩
    discStepBCE := fun d dOpt _ _ _ _ => ⟨d.map (· + 1), dOpt.map (· + 1), 5, 6, 7, 8⟩
    criticStep := fun e cr _ eo co _ _ _ _ _ _ _ =>
      ⟨e.map (· + 1), cr.map (· + 1), eo.map (· + 1), co.map (· + 1), 1, 2, 3, 4⟩
    actorStep := fun ac _ ao _ _ _ => ⟨ac.map (· + 1), ao.map (· + 1), 1, 2, 3⟩
    encoderStep := fun e tm rd eo tmo rdo _ _ _ _ _ _ _ =>
      ⟨e.map (· + 1), tm.map (· + 1), rd.map (· + 1), eo.map (· + 1),
       tmo.map (· + 1), rdo.map (· + 1), 1, 2, 3⟩ }

/-- Executable semantics for the contrastive agent over `ℚ`. -/
def clSem0 : ClSem ℚ :=
  { schedule := fun _ => 1
    applyAug := fun _ x => x.map (· + 1)
    perm := fun x => x.reverse
    encFwd := fun p x => p ++ x
    actorMean := fun p z s => p ++ z ++ [s]
    actorSampleNoClip := fun p z s n => p ++ z ++ [s] ++ n
    discScore := fun p x => p ++ x
    bernMode := fun d => d
    discStepLS := fun d dOpt _ _ _ _ => ⟨d.map (· + 1), dOpt.map (· + 1), 1, 2, 3, 4⟩
    discStepBCE := fun d dOpt _ _ _ _ => ⟨d.map (· + 1), dOpt.map (· + 1), 5, 6, 7, 8⟩
    criticStep := fun e cr _ eo co _ _ _ _ _ _ _ =>
      ⟨e.map (· + 1), cr.map (· + 1), eo.map (· + 1), co.map (· + 1), 1, 2, 3, 4⟩
    actorStep := fun ac _ ao _ _ _ => ⟨ac.map (· + 1), ao.map (· + 1), 1, 2, 3⟩
    clStep := fun e w eo wo _ _ =>
      ⟨e.map (· + 1), w.map (· + 1), eo.map (· + 1), wo.map (· + 1), 9⟩ }

/-- A concrete bisim agent state (`use_tb = True`, cadence 2,
least-squares GAN loss, state-pair discriminator inputs). -/
def bisimA0 : BisimAgent ℚ :=
  { criticTargetTau := 1/2
    updateEverySteps := 2
    useTb := true
    numExplSteps := 10
    stddevClip := 1/3
    bisimCoef := 1/2
    transitionModelType := "deterministic"
    ganLoss := "least-square"
    fromDem := false
    rewardDCoef := 10
    encoder := [1], actor := [2], critic := [3], criticTarget := [3]
    discriminator := [4], transitionModel := [5], rewardDecoder := [6]
    encoderOpt := [0], actorOpt := [0], criticOpt := [0]
    discriminatorOpt := [0], transitionModelOpt := [0], rewardDecoderOpt := [0]
    discTraining := true }

/-- A concrete contrastive agent state. -/
def clA0 : ClAgent ℚ :=
  { criticTargetTau := 1/2
    updateEverySteps := 2
    useTb := true
    numExplSteps := 10
    stddevClip := 1/3
    ganLoss := "least-square"
    fromDem := false
    checkEverySteps := 5
    trainEncoderWCritic := true
    clDataType := "agent"
    addAugAnchorAndPositive := false
    rewardDCoef := 10
    applyAugAttr := "everywhere"
    augment1 := .photo "full", augment2 := .photo "full"
    augD := .customAug (.photo "full"), augQ := .customAug (.photo "full")
    encoder := [1], actor := [2], critic := [3], criticTarget := [3]
    discriminator := [4], clW := [5]
    encoderOpt := [0], actorOpt := [0], criticOpt := [0]
    discriminatorOpt := [0], clOpt := [0]
    discTraining := true }

/-- A concrete deterministic encoder configuration (the bisim encoder, and
the contrastive encoder with `stochastic=False`). -/
def encDet0 : EncoderCfg :=
  { featureDim := 1
    stochastic := false
    logStdMin := 0
    logStdMax := 0
    convnet := fun _ => []
    trunkPre := fun _ => [0] }

/-- A concrete stochastic encoder configuration with `log_std_bounds = (0,0)`
(so `std = exp 0 = 1`) and zeroed trunk. -/
def encSto0 : EncoderCfg :=
  { featureDim := 1
    stochastic := true
    logStdMin := 0
    logStdMax := 0
    convnet := fun _ => []
    trunkPre := fun _ => [0, 0] }

/-! ## Theorems -/

/-- The bounding nonlinearity maps into the open interval `(-1, 1)`. -/
lemma tanh_mem_Ioo (x : ℝ) : -1 < Real.tanh x ∧ Real.tanh x < 1 := by
  constructor
  · rw [Real.tanh_eq_sinh_div_cosh, lt_div_iff₀ (Real.cosh_pos x)]
    have h : Real.sinh (-x) < Real.cosh (-x) := Real.sinh_lt_cosh (-x)
    rw [Real.sinh_neg, Real.cosh_neg] at h
    linarith
  · rw [Real.tanh_eq_sinh_div_cosh, div_lt_one (Real.cosh_pos x)]
    exact Real.sinh_lt_cosh x

section ScalarThms

variable {S : Type} [LinearOrderedField S]

/-- At `τ = 0` the Polyak update leaves the target unchanged. -/
lemma softUpdate_zero (live target : List S)
    (h : live.length = target.length) :
    softUpdateParams live target 0 = target := by
  unfold softUpdateParams
  induction live generalizing target with
  | nil =>
    cases target with
    | nil => rfl
    | cons y ys => simp at h
  | cons x xs ih =>
    cases target with
    | nil => simp at h
    | cons y ys =>
      rw [List.zipWith_cons_cons, ih ys (by simpa using h)]
      simp

/-- At `τ = 1` the Polyak update copies the live network. -/
lemma softUpdate_one (live target : List S)
    (h : live.length = target.length) :
    softUpdateParams live target 1 = live := by
  unfold softUpdateParams
  induction live generalizing target with
  | nil => rfl
  | cons x xs ih =>
    cases target with
    | nil => simp at h
    | cons y ys =>
      rw [List.zipWith_cons_cons, ih ys (by simpa using h)]
      simp

/-- C2: the claim says an unsupported enum value raises a configuration
error at construction or first use.  The code's dispatch `else` branches are
the bare expression `NotImplementedError` (never `raise`d): with
`aug_type = 'rotate'` and `apply_aug = 'nowhere'`, `select_aug_type` returns
normally and installs plain random-shift augmenters everywhere, so the agent
trains forever without any error; `TransitionModel.__init__` with an
unsupported `model_type` likewise returns normally, merely leaving the
prediction heads unset. -/
theorem unsupported_enum_values_noop :
    selectAugType "rotate" "nowhere" =
      .ok ⟨some (.randomShift 4), some (.randomShift 4),
           some (.randomShift 4), some (.randomShift 4)⟩ ∧
    (mkTransitionModel (S := ℚ) "garbage" [1] [2] [3]).mu = none ∧
    (mkTransitionModel (S := ℚ) "garbage" [1] [2] [3]).sigma = none ∧
    (mkTransitionModel (S := ℚ) "garbage" [1] [2] [3]).trunk = [1] :=
  ⟨rfl, rfl, rfl, rfl⟩

/-- C3: the claim says `depth_flag`/`segm_flag` make every augmentation
use-site behave as the `'nowhere'` routing.  In the code the override
`self.apply_aug = 'nowhere'` runs *after* `select_aug_type` has already
materialized the augmenters from the constructor's `apply_aug`, and the
stored string is never read again: with `depth_flag=True` and
`apply_aug='everywhere'` all four use-sites keep the photometric stack,
unlike the plain random-shift that `'nowhere'` would install. -/
theorem depth_flag_override_is_dead_store :
    mkClAgentAug "full" "everywhere" true false =
      .ok (⟨some (.photo "full"), some (.photo "full"),
            some (.customAug (.photo "full")),
            some (.customAug (.photo "full"))⟩, "nowhere") ∧
    selectAugType "full" "nowhere" =
      .ok ⟨some (.randomShift 4), some (.randomShift 4),
           some (.randomShift 4), some (.randomShift 4)⟩ ∧
    Augmenter.customAug (.photo "full") ≠ Augmenter.randomShift 4 :=
  ⟨rfl, rfl, by decide⟩

/-- C5: off-cadence (`step % update_every_steps != 0`) both `update`
implementations return an empty metrics mapping, leave the whole agent state
(parameters, critic target, optimizer states, mode flags) untouched and
consume no buffer iterator. -/
theorem update_noop_off_cadence (semB : BisimSem S) (semC : ClSem S)
    (a : BisimAgent S) (c : ClAgent S)
    (it itE i1 i2 i3 i4 : Iter (Batch S)) (step : ℕ)
    (hb : step % a.updateEverySteps ≠ 0)
    (hc : step % c.updateEverySteps ≠ 0) :
    BisimAgent.update semB a it itE step = ⟨a, it, itE, []⟩ ∧
    ClAgent.update semC c i1 i2 i3 i4 step =
      .ok ⟨c, i1, i2, i3, i4, []⟩ := by
  constructor
  · unfold BisimAgent.update
    rw [if_pos hb]
  · unfold ClAgent.update
    rw [if_pos hc]

/-- Witness for C5 at a concrete off-cadence step (`1 % 2 ≠ 0`). -/
theorem update_noop_off_cadence_witness :
    BisimAgent.update bisimSem0 bisimA0 qIter qIter 1 =
      ⟨bisimA0, qIter, qIter, []⟩ ∧
    ClAgent.update clSem0 clA0 qIter qIter qIter qIter 1 =
      .ok ⟨clA0, qIter, qIter, qIter, qIter, []⟩ :=
  update_noop_off_cadence bisimSem0 clSem0 bisimA0 clA0 qIter qIter qIter
    qIter qIter qIter 1 (by decide) (by decide)

/-- C9 (amended): `compute_reward` temporarily switches the discriminator to
evaluation mode and afterwards unconditionally sets it back to *training*
mode, and changes nothing else: no parameter or optimizer field moves.  It
therefore restores the prior mode exactly when the discriminator was in
training mode (the invariant `Agent.train` maintains during training), not
for an arbitrary prior mode. -/
theorem compute_reward_sets_train_and_nothing_else (semB : BisimSem S)
    (semC : ClSem S) (a : BisimAgent S) (c : ClAgent S)
    (ob nb oc nc : List S) :
    (BisimAgent.computeReward semB a ob nb).1 =
      { a with discTraining := true } ∧
    (ClAgent.computeReward semC c oc nc).1 =
      { c with discTraining := true } := by
  constructor <;> rfl

/-- Counterexample to C9 as stated: with the discriminator in evaluation
mode before the call, `compute_reward` leaves it in training mode — the
prior mode is not restored. -/
theorem compute_reward_does_not_restore_eval_mode :
    ({ bisimA0 with discTraining := false } : BisimAgent ℚ).discTraining
        = false ∧
    (BisimAgent.computeReward bisimSem0
        { bisimA0 with discTraining := false } [1] [2]).1.discTraining
        = true ∧
    ({ clA0 with discTraining := false } : ClAgent ℚ).discTraining = false ∧
    (ClAgent.computeReward clSem0
        { clA0 with discTraining := false } [1] [2]).1.discTraining
        = true :=
  ⟨rfl, rfl, rfl, rfl⟩

omit [LinearOrderedField S] in
/-- C10: `update_actor` performs exactly one optimizer step, on the actor:
every other module's parameters (encoder, critic, critic target,
discriminator, transition model / reward decoder, contrastive weight) and
every other optimizer state are identical before and after, in both
variants. -/
theorem update_actor_touches_only_actor (semB : BisimSem S) (semC : ClSem S)
    (a : BisimAgent S) (c : ClAgent S) (ob oc : List S) (sb sc : ℕ) :
    ((BisimAgent.updateActor semB a ob sb).1.encoder = a.encoder ∧
     (BisimAgent.updateActor semB a ob sb).1.critic = a.critic ∧
     (BisimAgent.updateActor semB a ob sb).1.criticTarget = a.criticTarget ∧
     (BisimAgent.updateActor semB a ob sb).1.discriminator
        = a.discriminator ∧
     (BisimAgent.updateActor semB a ob sb).1.transitionModel
        = a.transitionModel ∧
     (BisimAgent.updateActor semB a ob sb).1.rewardDecoder
        = a.rewardDecoder ∧
     (BisimAgent.updateActor semB a ob sb).1.encoderOpt = a.encoderOpt ∧
     (BisimAgent.updateActor semB a ob sb).1.criticOpt = a.criticOpt ∧
     (BisimAgent.updateActor semB a ob sb).1.discriminatorOpt
        = a.discriminatorOpt ∧
     (BisimAgent.updateActor semB a ob sb).1.transitionModelOpt
        = a.transitionModelOpt ∧
     (BisimAgent.updateActor semB a ob sb).1.rewardDecoderOpt
        = a.rewardDecoderOpt) ∧
    ((ClAgent.updateActor semC c oc sc).1.encoder = c.encoder ∧
     (ClAgent.updateActor semC c oc sc).1.critic = c.critic ∧
     (ClAgent.updateActor semC c oc sc).1.criticTarget = c.criticTarget ∧
     (ClAgent.updateActor semC c oc sc).1.discriminator
        = c.discriminator ∧
     (ClAgent.updateActor semC c oc sc).1.clW = c.clW ∧
     (ClAgent.updateActor semC c oc sc).1.encoderOpt = c.encoderOpt ∧
     (ClAgent.updateActor semC c oc sc).1.criticOpt = c.criticOpt ∧
     (ClAgent.updateActor semC c oc sc).1.discriminatorOpt
        = c.discriminatorOpt ∧
     (ClAgent.updateActor semC c oc sc).1.clOpt = c.clOpt) := by
  refine ⟨⟨rfl, rfl, rfl, rfl, rfl, rfl, rfl, rfl, rfl, rfl, rfl⟩,
          ⟨rfl, rfl, rfl, rfl, rfl, rfl, rfl, rfl, rfl⟩⟩

/-- C6: below `num_expl_steps` in non-eval mode, `act` returns exactly the
uniform draw written by `action.uniform_(-1.0, 1.0)` — for *any* actor (and
encoder) weights, so two agents with different actor weights map the same
draw to the same action (identical distributions), and the result is within
`[-1, 1]` in every dimension whenever the draw is. -/
theorem act_exploration_uniform_override (semB : BisimSem S) (semC : ClSem S)
    (a a' : BisimAgent S) (c c' : ClAgent S)
    (obA obA' obC obC' gA gA' gC gC' u : List S) (step : ℕ)
    (ha : step < a.numExplSteps) (ha' : step < a'.numExplSteps)
    (hc : step < c.numExplSteps) (hc' : step < c'.numExplSteps)
    (hu : ∀ x ∈ u, -1 ≤ x ∧ x ≤ 1) :
    BisimAgent.act semB a obA step false gA u = u ∧
    BisimAgent.act semB a' obA' step false gA' u = u ∧
    ClAgent.act semC c obC step false gC u = u ∧
    ClAgent.act semC c' obC' step false gC' u = u ∧
    ∀ x ∈ BisimAgent.act semB a obA step false gA u, -1 ≤ x ∧ x ≤ 1 := by
  have e1 : BisimAgent.act semB a obA step false gA u = u := by
    simp [BisimAgent.act, ha]
  have e2 : BisimAgent.act semB a' obA' step false gA' u = u := by
    simp [BisimAgent.act, ha']
  have e3 : ClAgent.act semC c obC step false gC u = u := by
    simp [ClAgent.act, hc]
  have e4 : ClAgent.act semC c' obC' step false gC' u = u := by
    simp [ClAgent.act, hc']
  exact ⟨e1, e2, e3, e4, by rw [e1]; exact hu⟩

/-- Witness for C6 at concrete inputs: step 1 of a 10-step exploration
window, two agents per variant differing in actor weights, and the draw
`[0, -1]` inside `[-1, 1]`. -/
theorem act_exploration_uniform_override_witness :
    BisimAgent.act bisimSem0 bisimA0 [1] 1 false [0] [0, -1] = [0, -1] ∧
    BisimAgent.act bisimSem0 { bisimA0 with actor := [9] } [1] 1 false [0]
        [0, -1] = [0, -1] ∧
    ClAgent.act clSem0 clA0 [1] 1 false [0] [0, -1] = [0, -1] ∧
    ClAgent.act clSem0 { clA0 with actor := [9] } [1] 1 false [0]
        [0, -1] = [0, -1] ∧
    ∀ x ∈ BisimAgent.act bisimSem0 bisimA0 [1] 1 false [0] [0, -1],
      -1 ≤ x ∧ x ≤ 1 :=
  act_exploration_uniform_override bisimSem0 clSem0 bisimA0
    { bisimA0 with actor := [9] } clA0 { clA0 with actor := [9] }
    [1] [1] [1] [1] [0] [0] [0] [0] [0, -1] 1
    (by decide) (by decide) (by decide) (by decide) (by decide)

end ScalarThms

/-- C1: evaluation of `LailBisimAgent.update` at a training step
(`0 % 2 = 0`, `use_tb = True`): the metrics carry discriminator, reward,
batch-reward, critic and actor entries but no `encoder_loss`, `model_loss`
or `reward_loss`, and the transition model, reward decoder and their
optimizer states are untouched — `update` never invokes `update_encoder`,
contrary to the claimed step 7 of the training orchestration. -/
theorem bisim_update_never_runs_update_encoder :
    (BisimAgent.update bisimSem0 bisimA0 qIter qIter 0).metrics.map
        Prod.fst =
      ["discriminator_expert_loss", "discriminator_agent_loss",
       "discriminator_loss", "discriminator_grad_pen", "reward_d",
       "batch_reward", "critic_target_q", "critic_q1", "critic_q2",
       "critic_loss", "actor_loss", "actor_logprob", "actor_ent"] ∧
    "encoder_loss" ∉
      (BisimAgent.update bisimSem0 bisimA0 qIter qIter 0).metrics.map
        Prod.fst ∧
    "model_loss" ∉
      (BisimAgent.update bisimSem0 bisimA0 qIter qIter 0).metrics.map
        Prod.fst ∧
    "reward_loss" ∉
      (BisimAgent.update bisimSem0 bisimA0 qIter qIter 0).metrics.map
        Prod.fst ∧
    (BisimAgent.update bisimSem0 bisimA0 qIter qIter 0).agent.transitionModel
      = bisimA0.transitionModel ∧
    (BisimAgent.update bisimSem0 bisimA0 qIter qIter 0).agent.rewardDecoder
      = bisimA0.rewardDecoder ∧
    (BisimAgent.update bisimSem0 bisimA0 qIter qIter
        0).agent.transitionModelOpt = bisimA0.transitionModelOpt ∧
    (BisimAgent.update bisimSem0 bisimA0 qIter qIter
        0).agent.rewardDecoderOpt = bisimA0.rewardDecoderOpt := by
  decide

/-- C4 (amended): for every observation, the encoder output has length
`feature_dim` (given the trunk's output-arity invariant and a noise vector
of matching length), and in non-stochastic operation — the bisim encoder,
and the contrastive encoder with `stochastic=False` — every component lies
strictly inside `(-1, 1)` thanks to the bounding `Tanh`.  In stochastic mode
only the shape survives: the output is a Gaussian sample. -/
theorem encoder_output_shape_and_bound (e : EncoderCfg) (obs noise : List ℝ)
    (hlen : ∀ h, (e.trunkPre h).length =
      (if e.stochastic then 2 * e.featureDim else e.featureDim))
    (hnoise : noise.length = e.featureDim) :
    (e.forward obs noise).length = e.featureDim ∧
    (e.stochastic = false →
      ∀ x ∈ e.forward obs noise, -1 < x ∧ x < 1) := by
  have hl := hlen (e.convnet (obs.map (fun p => p / 255 - 0.5)))
  cases hst : e.stochastic with
  | false =>
    rw [hst] at hl
    simp only [if_false, Bool.false_eq_true] at hl
    refine ⟨?_, ?_⟩
    · simp [EncoderCfg.forward, hst, hl]
    · intro _ x hx
      simp only [EncoderCfg.forward, hst, Bool.false_eq_true, if_false] at hx
      obtain ⟨y, _, rfl⟩ := List.mem_map.1 hx
      exact tanh_mem_Ioo y
  | true =>
    rw [hst] at hl
    simp only [if_true] at hl
    refine ⟨?_, ?_⟩
    · simp [EncoderCfg.forward, hst, hl, hnoise]
      omega
    · intro hfalse
      simp at hfalse

/-- Witness for C4 (amended) on a concrete non-stochastic configuration. -/
theorem encoder_output_shape_and_bound_witness :
    (encDet0.forward [] [0]).length = encDet0.featureDim ∧
    (encDet0.stochastic = false →
      ∀ x ∈ encDet0.forward [] [0], -1 < x ∧ x < 1) :=
  encoder_output_shape_and_bound encDet0 [] [0] (fun _ => rfl) rfl

/-- Counterexample to C4 as stated: with stochastic mode enabled and
`log_std_bounds = (0, 0)` (`std = exp 0 = 1`), a zeroed trunk and the
Gaussian draw `2`, `Encoder.forward` returns `[2]`, escaping `(-1, 1)`. -/
theorem stochastic_encoder_escapes_bounds :
    ¬ (∀ x ∈ encSto0.forward [] [2], -1 < x ∧ x < 1) := by
  intro hcl
  have hfwd : encSto0.forward [] [2] = [2] := by
    simp [EncoderCfg.forward, encSto0, Real.tanh_zero, Real.exp_zero]
  have h2 : (2 : ℝ) ∈ encSto0.forward [] [2] := by
    rw [hfwd]; exact List.mem_singleton.2 rfl
  have := (hcl 2 h2).2
  linarith

section OrchThms

variable {S : Type} [LinearOrderedField S]

omit [LinearOrderedField S] in
/-- Frame property of `update_CL`: a successful contrastive update writes
only the encoder, the contrastive weight and their two optimizer states. -/
lemma updateCL_frame (semC : ClSem S) (c : ClAgent S) (o1 o2 o3 o4 : List S)
    (r : ClAgent S × Metrics S)
    (h : ClAgent.updateCL semC c o1 o2 o3 o4 = .ok r) :
    r.1 = { c with
      encoder := r.1.encoder
      clW := r.1.clW
      encoderOpt := r.1.encoderOpt
      clOpt := r.1.clOpt } := by
  unfold ClAgent.updateCL at h
  cases hap : ClAgent.clAnchorsPositives semC c o1 o2 o3 o4 with
  | none => rw [hap] at h; exact absurd h (by simp)
  | some ap => rw [hap] at h; cases h; rfl

omit [LinearOrderedField S] in
/-- `update_discriminator` leaves the critic target untouched (bisim). -/
lemma bisim_updateDiscriminator_criticTarget (sem : BisimSem S)
    (a : BisimAgent S) (w x y z : List S) :
    (BisimAgent.updateDiscriminator sem a w x y z).1.criticTarget
      = a.criticTarget := rfl

/-- `compute_reward` leaves the critic target untouched (bisim). -/
lemma bisim_computeReward_criticTarget (sem : BisimSem S) (a : BisimAgent S)
    (o n : List S) :
    (BisimAgent.computeReward sem a o n).1.criticTarget
      = a.criticTarget := rfl

omit [LinearOrderedField S] in
/-- `update_critic` leaves the critic target untouched (bisim): the target
network is read for the bootstrap value but only critic and encoder step. -/
lemma bisim_updateCritic_criticTarget (sem : BisimSem S) (a : BisimAgent S)
    (o act r d n : List S) (s : ℕ) :
    (BisimAgent.updateCritic sem a o act r d n s).1.criticTarget
      = a.criticTarget := rfl

omit [LinearOrderedField S] in
/-- `update_actor` leaves the critic target untouched (bisim). -/
lemma bisim_updateActor_criticTarget (sem : BisimSem S) (a : BisimAgent S)
    (o : List S) (s : ℕ) :
    (BisimAgent.updateActor sem a o s).1.criticTarget = a.criticTarget := rfl

omit [LinearOrderedField S] in
/-- `update_discriminator` leaves the critic target untouched (CL). -/
lemma cl_updateDiscriminator_criticTarget (sem : ClSem S) (c : ClAgent S)
    (w x y z : List S) :
    (ClAgent.updateDiscriminator sem c w x y z).1.criticTarget
      = c.criticTarget := rfl

/-- `compute_reward` leaves the critic target untouched (CL). -/
lemma cl_computeReward_criticTarget (sem : ClSem S) (c : ClAgent S)
    (o n : List S) :
    (ClAgent.computeReward sem c o n).1.criticTarget = c.criticTarget := rfl

omit [LinearOrderedField S] in
/-- `update_critic` leaves the critic target untouched (CL), whichever
branch of `train_encoder_w_critic` runs. -/
lemma cl_updateCritic_criticTarget (sem : ClSem S) (c : ClAgent S)
    (o act r d n : List S) (s : ℕ) :
    (ClAgent.updateCritic sem c o act r d n s).1.criticTarget
      = c.criticTarget := by
  unfold ClAgent.updateCritic
  by_cases ht : c.trainEncoderWCritic <;> simp [ht]

omit [LinearOrderedField S] in
/-- `update_actor` leaves the critic target untouched (CL). -/
lemma cl_updateActor_criticTarget (sem : ClSem S) (c : ClAgent S)
    (o : List S) (s : ℕ) :
    (ClAgent.updateActor sem c o s).1.criticTarget = c.criticTarget := rfl

/-- C8: at a training step, both `update` implementations finish by setting
the critic target to exactly one Polyak blend of the (post-step) live critic
with the *pre-call* critic target — no other write to the critic target
occurs in the call — and the blend is the identity at `τ = 0` and an exact
copy of the live critic at `τ = 1`. -/
theorem critic_target_convex_soft_update (semB : BisimSem S) (semC : ClSem S)
    (a : BisimAgent S) (c : ClAgent S)
    (it itE i1 i2 i3 i4 : Iter (Batch S)) (step : ℕ)
    (live target : List S)
    (hb : step % a.updateEverySteps = 0)
    (hc : step % c.updateEverySteps = 0)
    (hlen : live.length = target.length) :
    ((BisimAgent.update semB a it itE step).agent.criticTarget =
      softUpdateParams (BisimAgent.update semB a it itE step).agent.critic
        a.criticTarget a.criticTargetTau) ∧
    ((ClAgent.update semC c i1 i2 i3 i4 step).map
        (fun o => o.agent.criticTarget) =
      (ClAgent.update semC c i1 i2 i3 i4 step).map
        (fun o => softUpdateParams o.agent.critic c.criticTarget
          c.criticTargetTau)) ∧
    softUpdateParams live target 0 = target ∧
    softUpdateParams live target 1 = live := by
  refine ⟨?_, ?_, softUpdate_zero live target hlen,
          softUpdate_one live target hlen⟩
  · unfold BisimAgent.update
    rw [if_neg (by simp [hb])]
    by_cases hd : a.fromDem <;>
      simp [hd, bisim_updateActor_criticTarget,
            bisim_updateCritic_criticTarget, bisim_computeReward_criticTarget,
            bisim_updateDiscriminator_criticTarget]
  · unfold ClAgent.update
    rw [if_neg (by simp [hc])]
    simp only [Iter.next]
    cases hcl : ClAgent.updateCL semC c (i1.src i1.pos).obs
        (i2.src i2.pos).obs (i3.src i3.pos).obs (i4.src i4.pos).obs with
    | error e => rfl
    | ok rCL =>
      have hfr : rCL.1.criticTarget = c.criticTarget := by
        rw [updateCL_frame semC c _ _ _ _ rCL hcl]
      by_cases hd : c.fromDem <;>
        simp [hd, hfr, Except.map, cl_updateActor_criticTarget,
              cl_updateCritic_criticTarget, cl_computeReward_criticTarget,
              cl_updateDiscriminator_criticTarget]

end OrchThms

/-- Witness for C8 at a concrete training step (`0 % 2 = 0`) and concrete
parameter vectors. -/
theorem critic_target_convex_soft_update_witness :
    ((BisimAgent.update bisimSem0 bisimA0 qIter qIter 0).agent.criticTarget =
      softUpdateParams
        (BisimAgent.update bisimSem0 bisimA0 qIter qIter 0).agent.critic
        bisimA0.criticTarget bisimA0.criticTargetTau) ∧
    ((ClAgent.update clSem0 clA0 qIter qIter qIter qIter 0).map
        (fun o => o.agent.criticTarget) =
      (ClAgent.update clSem0 clA0 qIter qIter qIter qIter 0).map
        (fun o => softUpdateParams o.agent.critic clA0.criticTarget
          clA0.criticTargetTau)) ∧
    softUpdateParams [(1 : ℚ), 2] [3, 4] 0 = [3, 4] ∧
    softUpdateParams [(1 : ℚ), 2] [3, 4] 1 = [1, 2] :=
  critic_target_convex_soft_update bisimSem0 clSem0 bisimA0 clA0 qIter qIter
    qIter qIter qIter qIter 0 [1, 2] [3, 4] (by decide) (by decide)
    (by decide)

section RewardThms

variable {S : Type} [LinearOrderedField S]

/-- C7: the critic update consumes only the discriminator-derived reward
from `compute_reward`; the extrinsic batch reward reaches nothing but the
`batch_reward` diagnostic.  Feeding either `update` two agent batches that
differ only in the extrinsic reward component yields identical final agent
states (all parameters and optimizer states) and identical metrics outside
the `batch_reward` entry, in both variants. -/
theorem extrinsic_reward_only_logs_batch_reward (semB : BisimSem S)
    (semC : ClSem S) (a : BisimAgent S) (c : ClAgent S)
    (it it2 itE j1 j2 i2 i3 i4 : Iter (Batch S)) (step : ℕ) (r' : List S)
    (hbatch : (it2.next).1 = { (it.next).1 with reward := r' })
    (hcbatch : (j2.next).1 = { (j1.next).1 with reward := r' }) :
    (BisimAgent.update semB a it itE step).agent
      = (BisimAgent.update semB a it2 itE step).agent ∧
    (BisimAgent.update semB a it itE step).metrics.filter
        (fun kv => kv.1 != "batch_reward")
      = (BisimAgent.update semB a it2 itE step).metrics.filter
        (fun kv => kv.1 != "batch_reward") ∧
    (ClAgent.update semC c j1 i2 i3 i4 step).map (fun o => o.agent)
      = (ClAgent.update semC c j2 i2 i3 i4 step).map (fun o => o.agent) ∧
    (ClAgent.update semC c j1 i2 i3 i4 step).map
        (fun o => o.metrics.filter (fun kv => kv.1 != "batch_reward"))
      = (ClAgent.update semC c j2 i2 i3 i4 step).map
        (fun o => o.metrics.filter (fun kv => kv.1 != "batch_reward")) := by
  have hb2 : it2.src it2.pos = { it.src it.pos with reward := r' } := by
    simpa [Iter.next] using hbatch
  have hc2 : j2.src j2.pos = { j1.src j1.pos with reward := r' } := by
    simpa [Iter.next] using hcbatch
  refine ⟨?_, ?_, ?_, ?_⟩
  · by_cases hs : step % a.updateEverySteps ≠ 0
    · unfold BisimAgent.update
      rw [if_pos hs, if_pos hs]
    · unfold BisimAgent.update
      rw [if_neg hs, if_neg hs]
      simp only [Iter.next, hb2]
  · by_cases hs : step % a.updateEverySteps ≠ 0
    · unfold BisimAgent.update
      rw [if_pos hs, if_pos hs]
    · unfold BisimAgent.update
      rw [if_neg hs, if_neg hs]
      simp only [Iter.next, hb2]
      simp [List.filter_append, apply_ite (List.filter
        (fun (kv : String × S) => kv.1 != "batch_reward")), List.filter]
  · by_cases hs : step % c.updateEverySteps ≠ 0
    · unfold ClAgent.update
      rw [if_pos hs, if_pos hs]
      rfl
    · unfold ClAgent.update
      rw [if_neg hs, if_neg hs]
      simp only [Iter.next, hc2]
      cases hcl : ClAgent.updateCL semC c (j1.src j1.pos).obs
          (i2.src i2.pos).obs (i3.src i3.pos).obs (i4.src i4.pos).obs with
      | error e => rfl
      | ok rCL => rfl
  · by_cases hs : step % c.updateEverySteps ≠ 0
    · unfold ClAgent.update
      rw [if_pos hs, if_pos hs]
      rfl
    · unfold ClAgent.update
      rw [if_neg hs, if_neg hs]
      simp only [Iter.next, hc2]
      cases hcl : ClAgent.updateCL semC c (j1.src j1.pos).obs
          (i2.src i2.pos).obs (i3.src i3.pos).obs (i4.src i4.pos).obs with
      | error e => rfl
      | ok rCL =>
        simp [Except.map, List.filter_append, apply_ite (List.filter
          (fun (kv : String × S) => kv.1 != "batch_reward")), List.filter]

end RewardThms

/-- Witness for C7 at concrete iterators whose first batches differ exactly
in the extrinsic reward (`[3]` versus `[7]`). -/
theorem extrinsic_reward_only_logs_batch_reward_witness :
    (BisimAgent.update bisimSem0 bisimA0 qIter qIter 0).agent
      = (BisimAgent.update bisimSem0 bisimA0 qIterReward7 qIter 0).agent ∧
    (BisimAgent.update bisimSem0 bisimA0 qIter qIter 0).metrics.filter
        (fun kv => kv.1 != "batch_reward")
      = (BisimAgent.update bisimSem0 bisimA0 qIterReward7 qIter
          0).metrics.filter (fun kv => kv.1 != "batch_reward") ∧
    (ClAgent.update clSem0 clA0 qIter qIter qIter qIter 0).map
        (fun o => o.agent)
      = (ClAgent.update clSem0 clA0 qIterReward7 qIter qIter qIter 0).map
        (fun o => o.agent) ∧
    (ClAgent.update clSem0 clA0 qIter qIter qIter qIter 0).map
        (fun o => o.metrics.filter (fun kv => kv.1 != "batch_reward"))
      = (ClAgent.update clSem0 clA0 qIterReward7 qIter qIter qIter 0).map
        (fun o => o.metrics.filter (fun kv => kv.1 != "batch_reward")) :=
  extrinsic_reward_only_logs_batch_reward bisimSem0 clSem0 bisimA0 clA0
    qIter qIterReward7 qIter qIter qIterReward7 qIter qIter qIter 0 [7]
    (by decide) (by decide)

end CLAIfO
